import Mathlib

/-!
Verification development for the resilient request-execution core of the
mixpost-mcp-server repository: the error classifier (`enhanceError` and its
helpers), the retry orchestrator (`retryOperation`, `calculateBackoffDelay`),
the circuit breaker (`CircuitBreaker` class state machine), and their
composition (`executeWithRetry`, `MixpostClient.executeRequest`).

The TypeScript source treats raw failures as JavaScript values of unknown
shape and probes their fields, so the embedding models JavaScript runtime
values explicitly (`JsVal`) and translates each private helper of the
`ErrorHandler` class field-probe by field-probe.
-/

namespace Mixpost

/-- Model of a JavaScript runtime value as inspected by the error-handling
code: strings, numbers (the statuses and counters in play are integers, so
numbers are modelled as `Int`), booleans, `null`, `undefined`, arrays, and
plain objects. A `JObj` models a JavaScript object as its ordered key/value
entries (unique keys, as produced by `Object.entries`). Functions never occur
among the probed values, so they are not modelled. -/
inductive JsVal where
  | JStr (s : String)
  | JNum (n : Int)
  | JBool (b : Bool)
  | JNull
  | JUndef
  | JArr (elems : List JsVal)
  | JObj (fields : List (String × JsVal))

mutual

/-- JavaScript `String(v)` conversion for the values that occur in validation
maps: strings are returned as-is, numbers and booleans are printed, `null` and
`undefined` print their names, arrays join their elements with commas
(`Array.prototype.toString`, under which `null`/`undefined` elements become
empty), and plain objects print as `[object Object]`. -/
def jsToString : JsVal → String
  | .JStr s => s
  | .JNum n => toString n
  | .JBool b => if b then "true" else "false"
  | .JNull => "null"
  | .JUndef => "undefined"
  | .JArr l => String.intercalate "," (jsArrStrings l)
  | .JObj _ => "[object Object]"

/-- Elementwise conversion used by `Array.prototype.toString`: `null` and
`undefined` elements contribute an empty string. -/
def jsArrStrings : List JsVal → List String
  | [] => []
  | .JNull :: rest => "" :: jsArrStrings rest
  | .JUndef :: rest => "" :: jsArrStrings rest
  | v :: rest => jsToString v :: jsArrStrings rest

end

/-- `Object.entries(v)`: defined for plain objects, and for arrays (index keys
in order); `none` for every other value, which is also how the source's
`typeof v === 'object' && v !== null` guards are decided. -/
def objEntries : JsVal → Option (List (String × JsVal))
  | .JObj m => some m
  | .JArr l => some (l.enum.map fun p => (toString p.1, p.2))
  | _ => none

/-- Property access `e[k]`. A property whose value is `undefined` is treated
as absent, which agrees with every use in the source (optional chaining, `??`
chains, `typeof` checks and explicit `!== undefined` guards). -/
def jsField (e : JsVal) (k : String) : Option JsVal :=
  match (objEntries e).bind (List.lookup k) with
  | some .JUndef => none
  | v => v

/-- Extract a string-valued property (`typeof x === 'string'` probe). -/
def jstrOf : Option JsVal → Option String
  | some (.JStr s) => some s
  | _ => none

/-- Extract a number-valued property (`typeof x === 'number'` probe). -/
def jnumOf : Option JsVal → Option Int
  | some (.JNum n) => some n
  | _ => none

/-- `ErrorHandler.isAxiosError`: the value has an `isAxiosError` property that
is exactly `true`. -/
def isAxiosErr (e : JsVal) : Bool :=
  match jsField e "isAxiosError" with
  | some (.JBool true) => true
  | _ => false

/-- `ErrorHandler.isApiErrorLike`: the value has a numeric `status` and a
string `message`. -/
def isApiErrorLike (e : JsVal) : Bool :=
  (jnumOf (jsField e "status")).isSome && (jstrOf (jsField e "message")).isSome

/-- The `apiError?.status` channel: the top-level numeric `status`, available
only when the value is ApiError-like. -/
def apiStatusOpt (e : JsVal) : Option Int :=
  if isApiErrorLike e then jnumOf (jsField e "status") else none

/-- The `axiosError?.response` channel, available only when the value carries
`isAxiosError: true`. -/
def axResponse (e : JsVal) : Option JsVal :=
  if isAxiosErr e then jsField e "response" else none

/-- The `axiosError?.response?.status` channel. -/
def axStatusOpt (e : JsVal) : Option Int :=
  (axResponse e).bind fun r => jnumOf (jsField r "status")

/-- The status used for the enhanced output, `enhanceError` line
`axiosError?.response?.status ?? apiError?.status ?? 500` before the default:
the axios response status takes precedence over the top-level status. -/
def rawStatusOf (e : JsVal) : Option Int :=
  axStatusOpt e <|> apiStatusOpt e

/-- The status stored in the enhanced error (defaults to 500). -/
def statusOf (e : JsVal) : Int :=
  (rawStatusOf e).getD 500

/-- The status used by `ErrorHandler.isRetryable`:
`(isApiErrorLike ? error.status : undefined) ?? (isAxiosError ?
error.response?.status : undefined)` — note the opposite precedence from
`statusOf`. -/
def retryStatusOf (e : JsVal) : Option Int :=
  apiStatusOpt e <|> axStatusOpt e

/-- The transport/classification `code` read by `getErrorCode` and
`isRetryable`; both of that function's `??` operands read the same `code`
property, and a non-string value never matches any of the compared constants,
so it is treated as absent. -/
def codeOf (e : JsVal) : Option String :=
  jstrOf (jsField e "code")

/-- `ErrorHandler.hasResponse`: a `response` property is present and not
`undefined` (both the axios and the generic branch reduce to this). -/
def hasResp (e : JsVal) : Bool :=
  (jsField e "response").isSome

/-- `ErrorHandler.extractPlainMessage`: the top-level `message` property when
it is a string (the ApiError-like branch and the generic branch coincide). -/
def msgOf (e : JsVal) : Option String :=
  jstrOf (jsField e "message")

/-- The `axiosError?.response?.data` channel. -/
def respData (e : JsVal) : Option JsVal :=
  (axResponse e).bind fun r => jsField r "data"

/-- `ErrorHandler.getErrorCode`: transport codes first, then the circuit-open
marker, then the bare network-error shape, then the status table. -/
def getErrorCode (status : Int) (e : JsVal) : String :=
  if codeOf e = some "ECONNABORTED" then "TIMEOUT"
  else if codeOf e = some "ECONNREFUSED" then "CONNECTION_REFUSED"
  else if codeOf e = some "CIRCUIT_OPEN" then "CIRCUIT_OPEN"
  else if hasResp e = false ∧ msgOf e = some "Network Error" then "NETWORK_ERROR"
  else if status = 400 then "BAD_REQUEST"
  else if status = 401 then "UNAUTHORIZED"
  else if status = 403 then "FORBIDDEN"
  else if status = 404 then "NOT_FOUND"
  else if status = 405 then "METHOD_NOT_ALLOWED"
  else if status = 409 then "CONFLICT"
  else if status = 422 then "UNPROCESSABLE_ENTITY"
  else if status = 429 then "TOO_MANY_REQUESTS"
  else if status = 500 then "INTERNAL_SERVER_ERROR"
  else if status = 502 then "BAD_GATEWAY"
  else if status = 503 then "SERVICE_UNAVAILABLE"
  else if status = 504 then "GATEWAY_TIMEOUT"
  else if 500 ≤ status then "INTERNAL_SERVER_ERROR"
  else "BAD_REQUEST"

/-- The response-body fallback of `ErrorHandler.getErrorMessage`: a string
`message` (returned even when empty), else a string `error` field (likewise),
else the fixed generic string. -/
def bodyMessage (e : JsVal) : String :=
  match respData e with
  | some d =>
    if (objEntries d).isSome then
      match jstrOf (jsField d "message") with
      | some s => s
      | none =>
        match jstrOf (jsField d "error") with
        | some s => s
        | none => "An unexpected error occurred"
    else "An unexpected error occurred"
  | none => "An unexpected error occurred"

/-- `ErrorHandler.getErrorMessage`: the plain message when truthy (the `if
(plainMessage)` guard skips an empty string), else the response-body fallback. -/
def getErrorMessage (e : JsVal) : String :=
  match msgOf e with
  | some s => if s = "" then bodyMessage e else s
  | none => bodyMessage e

/-- `ErrorHandler.isRetryable`: `CIRCUIT_OPEN` is never retryable; a truthy
status in `[400, 500)` is retryable exactly for 429 and 408; otherwise
retryable iff the status is absent or at least 500 (a status of 0 is falsy in
the source's `status && status >= 400` guard, but 0 also fails `400 ≤ s`, so
both readings agree). -/
def isRetryable (e : JsVal) : Bool :=
  if codeOf e = some "CIRCUIT_OPEN" then false
  else
    match retryStatusOf e with
    | none => true
    | some s => if 400 ≤ s ∧ s < 500 then decide (s = 429 ∨ s = 408) else decide (500 ≤ s)

/-- Truthy-object test `v && typeof v === 'object'` (arrays included, `null`
excluded). -/
def isObjTruthy : JsVal → Bool
  | .JObj _ => true
  | .JArr _ => true
  | _ => false

/-- The normalization loop shared by both branches of
`ErrorHandler.extractValidationErrors`: arrays map `String` over each element
(an empty array is kept, producing an empty list), `null` and `undefined`
values drop the field, every other value is wrapped into a one-element list. -/
def normalizeErrors (m : List (String × JsVal)) : List (String × List String) :=
  m.filterMap fun kv =>
    match kv.2 with
    | .JArr l => some (kv.1, l.map jsToString)
    | .JNull => none
    | .JUndef => none
    | v => some (kv.1, [jsToString v])

/-- The axios branch of `extractValidationErrors`: a truthy-object `errors`
property of the response body, normalized; `undefined` when the normalized
result is empty or the shape does not match. -/
def axiosErrorsBranch (e : JsVal) : Option (List (String × List String)) :=
  match respData e with
  | some d =>
    if (objEntries d).isSome then
      match jsField d "errors" with
      | some errs =>
        if isObjTruthy errs then
          let r := normalizeErrors ((objEntries errs).getD [])
          if r = [] then none else some r
        else none
      | none => none
    else none
  | none => none

/-- `ErrorHandler.extractValidationErrors`: the ApiError-like branch when the
top-level `errors` is a truthy object, otherwise the axios response-body
branch. -/
def extractValidationErrors (e : JsVal) : Option (List (String × List String)) :=
  if isApiErrorLike e then
    match jsField e "errors" with
    | some v =>
      if isObjTruthy v then
        let r := normalizeErrors ((objEntries v).getD [])
        if r = [] then none else some r
      else axiosErrorsBranch e
    | none => axiosErrorsBranch e
  else axiosErrorsBranch e

/-- `ErrorHandler.getErrorSuggestion`: a fixed lookup keyed by code, with the
`CIRCUIT_OPEN` case reusing any truthy string suggestion carried by an
ApiError-like raw failure (the `suggestion || default` guard skips an empty
string). -/
def getErrorSuggestion (code : String) (e : JsVal) : String :=
  if code = "UNAUTHORIZED" then
    "Check your API key and ensure it is valid and has the necessary permissions"
  else if code = "FORBIDDEN" then
    "You do not have permission to access this resource. Check your workspace access"
  else if code = "NOT_FOUND" then
    "The requested resource was not found. Verify the ID and that it exists"
  else if code = "TOO_MANY_REQUESTS" then
    "Rate limit exceeded. Please wait before making additional requests"
  else if code = "UNPROCESSABLE_ENTITY" then
    "Validation failed. Check the request data format and required fields"
  else if code = "TIMEOUT" then
    "Request timed out. The server may be slow or unresponsive. Try again later"
  else if code = "NETWORK_ERROR" then
    "Network connection failed. Check your internet connection and server URL"
  else if code = "SERVICE_UNAVAILABLE" then
    "Service is temporarily unavailable. This is usually temporary, please try again later"
  else if code = "CIRCUIT_OPEN" then
    match (if isApiErrorLike e then jstrOf (jsField e "suggestion") else none) with
    | some s => if s = "" then "Service is experiencing issues. Please wait before retrying" else s
    | none => "Service is experiencing issues. Please wait before retrying"
  else
    "An error occurred. If this persists, please check the API documentation or contact support"

/-- Call-site metadata (`ErrorContext` in the source). -/
structure ErrorContext where
  endpoint : Option String := none
  method : Option String := none
deriving DecidableEq, Repr

/-- The `context` sub-object of an enhanced error. The `timestamp` field of
the source (the wall-clock instant of classification) is not modelled. -/
structure EnhCtx where
  endpoint : Option String
  method : Option String
  requestId : Option String
  retryCount : Option Nat
deriving DecidableEq, Repr

/-- `EnhancedApiError`, the normalized error shape produced by the handler.
All fields the source always assigns are modelled as required. -/
structure EnhancedApiError where
  message : String
  status : Int
  code : String
  retryable : Bool
  suggestion : String
  errors : Option (List (String × List String))
  context : EnhCtx
deriving DecidableEq, Repr

/-- The `axiosError?.config` channel. -/
def axConfig (e : JsVal) : Option JsVal :=
  if isAxiosErr e then jsField e "config" else none

/-- `ErrorHandler.extractRequestId` (plain-record headers branch; the
`headers.get` function branch involves a function value and is outside the
modelled value domain). -/
def extractRequestId (e : JsVal) : Option String :=
  (axConfig e).bind fun c => (jsField c "headers").bind fun h => jstrOf (jsField h "X-Request-ID")

/-- `ErrorHandler.enhanceError`: the classification of a raw failure. One
caveat: the source's `method` stamping,
`(context?.method ?? axiosError?.config?.method)?.toUpperCase()`, only
short-circuits on a nullish resolved value, so when the caller supplies no
method and the axios config carries a non-string, non-null `method`, the
source raises a TypeError instead of returning. This function models the
returned value on the non-throwing domain (there, a non-string `method` never
reaches the upper-casing, so reading it through `jstrOf` is exact); the
predicate `enhanceErrorThrows` below decides the throwing inputs. -/
def enhanceError (e : JsVal) (ctx : Option ErrorContext) (retryCount : Option Nat) :
    EnhancedApiError :=
  let status := statusOf e
  let code := getErrorCode status e
  { message := getErrorMessage e
    status := status
    code := code
    retryable := isRetryable e
    suggestion := getErrorSuggestion code e
    errors := extractValidationErrors e
    context :=
      { endpoint := (ctx.bind (·.endpoint)) <|> ((axConfig e).bind fun c => jstrOf (jsField c "url"))
        method :=
          (((ctx.bind (·.method)) <|>
            ((axConfig e).bind fun c => jstrOf (jsField c "method")))).map String.toUpper
        requestId := extractRequestId e
        retryCount := retryCount } }

/-- The one throw path of `ErrorHandler.enhanceError`: the method upper-casing
`(context?.method ?? axiosError?.config?.method)?.toUpperCase()` raises a
TypeError exactly when the caller supplies no method and the raw axios failure
carries a `config.method` that is neither a string (which has `toUpperCase`)
nor `null`/`undefined` (on which `?.` and `??` short-circuit). Every other
field probe of `enhanceError` is guarded, so this predicate decides the inputs
on which the source throws. -/
def enhanceErrorThrows (e : JsVal) (ctx : Option ErrorContext) : Bool :=
  match ctx.bind (·.method) with
  | some _ => false
  | none =>
    match (axConfig e).bind fun c => jsField c "method" with
    | some (.JStr _) => false
    | some .JNull => false
    | some _ => true
    | none => false

/-- `CircuitBreakerConfig` (the `monitoringPeriod` field is carried but never
read by the source). -/
structure CircuitBreakerConfig where
  failureThreshold : Nat
  resetTimeout : Nat
  monitoringPeriod : Nat := 0
deriving DecidableEq, Repr

/-- The three phases of the `CircuitBreaker` class. -/
inductive CBPhase where
  | CLOSED
  | OPEN
  | HALF_OPEN
deriving DecidableEq, Repr

/-- The private mutable state of a `CircuitBreaker` instance. Timestamps are
epoch milliseconds modelled as `Nat`. -/
structure CBState where
  state : CBPhase := .CLOSED
  failures : Nat := 0
  successCount : Nat := 0
  lastFailureTime : Option Nat := none
  nextAttemptTime : Option Nat := none
deriving DecidableEq, Repr

/-- The state a `CircuitBreaker` is constructed with. -/
def CBState.init : CBState := {}

/-- `CircuitBreaker.onSuccess`: in HALF_OPEN, count the success and close the
circuit (resetting failures) at three; in CLOSED, decay the failure counter by
one, floored at zero (`Math.max(0, failures - 1)` is `Nat` subtraction). -/
def CBState.onSuccess (s : CBState) : CBState :=
  if s.state = .HALF_OPEN then
    let sc := s.successCount + 1
    if 3 ≤ sc then { s with successCount := sc, state := .CLOSED, failures := 0 }
    else { s with successCount := sc }
  else if s.state = .CLOSED then { s with failures := s.failures - 1 }
  else s

/-- `CircuitBreaker.onFailure`: increment the failure counter, record the
failure time, and open the circuit once the threshold is reached, scheduling
the next attempt `resetTimeout` later. -/
def CBState.onFailure (cfg : CircuitBreakerConfig) (s : CBState) (now : Nat) : CBState :=
  if cfg.failureThreshold ≤ s.failures + 1 then
    { s with
      failures := s.failures + 1
      lastFailureTime := some now
      state := .OPEN
      nextAttemptTime := some (now + cfg.resetTimeout) }
  else { s with failures := s.failures + 1, lastFailureTime := some now }

/-- `Math.ceil(ms / 1000)` on a nonnegative millisecond count. The source
computes `(nextAttemptTime ?? now) - now`, which is only evaluated on the
short-circuit path where `now < nextAttemptTime`, so the difference is
positive and `Nat` subtraction is exact there. -/
def ceilSeconds (ms : Nat) : Nat := (ms + 999) / 1000

/-- `CircuitBreaker.createCircuitOpenError`: the synthesized 503 error whose
suggestion names the remaining wait in seconds. -/
def createCircuitOpenError (s : CBState) (now : Nat) : EnhancedApiError :=
  { message := "Circuit breaker is open - service temporarily unavailable"
    status := 503
    code := "CIRCUIT_OPEN"
    retryable := false
    suggestion :=
      "Service is experiencing issues. Circuit will reset in " ++
        toString (ceilSeconds (s.nextAttemptTime.getD now - now)) ++ " seconds"
    errors := none
    context := { endpoint := none, method := none, requestId := none, retryCount := none } }

/-- `CircuitBreaker.execute` on one call: `now` is the clock at entry (the
open-circuit check) and `nowEnd` the clock when a failure is recorded;
`outcome` is what the wrapped operation would produce if invoked. On the
short-circuit path the outcome is not consumed. -/
def cbExecute {α : Type} (cfg : CircuitBreakerConfig) (s : CBState) (now nowEnd : Nat)
    (outcome : Except EnhancedApiError α) : Except EnhancedApiError α × CBState :=
  if s.state = .OPEN ∧ now < s.nextAttemptTime.getD 0 then
    (.error (createCircuitOpenError s now), s)
  else
    let s1 := if s.state = .OPEN then { s with state := .HALF_OPEN, successCount := 0 } else s
    match outcome with
    | .ok v => (.ok v, s1.onSuccess)
    | .error e => (.error e, CBState.onFailure cfg s1 nowEnd)

/-- One observable call against the breaker, keeping only the state; the error
payload of a failing outcome does not influence the state update. -/
def cbStep (cfg : CircuitBreakerConfig) (s : CBState) (now nowEnd : Nat) (succeeds : Bool) :
    CBState :=
  (cbExecute cfg s now nowEnd
    (if succeeds then Except.ok () else .error (createCircuitOpenError CBState.init 0))).2

/-- States reachable from the freshly constructed breaker by any sequence of
calls at arbitrary times with arbitrary outcomes. -/
def CBReachable (cfg : CircuitBreakerConfig) (s : CBState) : Prop :=
  Relation.ReflTransGen (fun a b => ∃ now nowEnd ok, b = cbStep cfg a now nowEnd ok)
    CBState.init s

/-- `RetryConfig`: delays in milliseconds, modelled over `ℚ` (the source uses
JavaScript numbers; nothing in the claims depends on rounding). -/
structure RetryConfig where
  maxRetries : Nat
  baseDelay : ℚ
  maxDelay : ℚ
  shouldRetry : EnhancedApiError → Bool

/-- `ErrorHandler.calculateBackoffDelay`: exponential delay with a
multiplicative jitter factor `0.5 + rand * 0.5` (where `rand` is the
`Math.random()` draw in `[0, 1)`), clamped to `maxDelay`. -/
def calculateBackoffDelay (rc : RetryConfig) (retryCount : Nat) (rand : ℚ) : ℚ :=
  let exponentialDelay := rc.baseDelay * 2 ^ retryCount
  let jitteredDelay := exponentialDelay * (1 / 2 + rand * (1 / 2))
  min jitteredDelay rc.maxDelay

/-- Encoding of an `EnhancedApiError` back into the JavaScript value domain:
this is the object the default retry predicate re-inspects. Absent optional
parts are omitted, matching properties assigned `undefined`. -/
def enhCtxToJsVal (c : EnhCtx) : JsVal :=
  .JObj
    ((match c.endpoint with | some s => [("endpoint", JsVal.JStr s)] | none => []) ++
     (match c.method with | some s => [("method", JsVal.JStr s)] | none => []) ++
     (match c.requestId with | some s => [("requestId", JsVal.JStr s)] | none => []) ++
     (match c.retryCount with | some n => [("retryCount", JsVal.JNum n)] | none => []))

/-- Encoding of an `EnhancedApiError` as the JavaScript object the source
builds. -/
def enhToJsVal (e : EnhancedApiError) : JsVal :=
  .JObj
    ([("message", JsVal.JStr e.message), ("status", JsVal.JNum e.status),
      ("code", JsVal.JStr e.code), ("retryable", JsVal.JBool e.retryable),
      ("suggestion", JsVal.JStr e.suggestion)] ++
     (match e.errors with
      | some m =>
        [("errors", JsVal.JObj (m.map fun p => (p.1, JsVal.JArr (p.2.map JsVal.JStr))))]
      | none => []) ++
     [("context", enhCtxToJsVal e.context)])

/-- The default `shouldRetry` of `ErrorHandler`: apply `isRetryable` to the
already-enhanced error object. -/
def defaultShouldRetry (e : EnhancedApiError) : Bool :=
  isRetryable (enhToJsVal e)

/-- The `defaultRetryConfig` of `ErrorHandler`. -/
def defaultRetryConfig : RetryConfig :=
  { maxRetries := 3, baseDelay := 1000, maxDelay := 10000, shouldRetry := defaultShouldRetry }

/-- `ErrorHandler.retryOperation`: attempt the operation (modelled as the
outcome of each numbered attempt), classify a failure, retry while budget
remains and the predicate accepts, otherwise surface the enhanced error.
Returns the final outcome together with the number of attempts made; the
backoff sleep changes no modelled state and is elided. -/
def retryOperation {α : Type} (rc : RetryConfig) (op : Nat → Except JsVal α)
    (ctx : Option ErrorContext) (retryCount : Nat) : Except EnhancedApiError α × Nat :=
  match op retryCount with
  | .ok v => (.ok v, 1)
  | .error raw =>
    if h : retryCount < rc.maxRetries ∧
        rc.shouldRetry (enhanceError raw ctx (some retryCount)) = true then
      ((retryOperation rc op ctx (retryCount + 1)).1,
       (retryOperation rc op ctx (retryCount + 1)).2 + 1)
    else
      (.error (enhanceError raw ctx (some retryCount)), 1)
termination_by rc.maxRetries - retryCount
decreasing_by
  have := h.1
  omega

/-- `ErrorHandler.executeWithRetry`: the retry orchestrator wrapped in the
circuit breaker; when the breaker short-circuits, the inner operation runs
zero attempts. -/
def executeWithRetry {α : Type} (rc : RetryConfig) (cbcfg : CircuitBreakerConfig)
    (cb : CBState) (now nowEnd : Nat) (op : Nat → Except JsVal α)
    (ctx : Option ErrorContext) : (Except EnhancedApiError α × CBState) × Nat :=
  if cb.state = .OPEN ∧ now < cb.nextAttemptTime.getD 0 then
    ((.error (createCircuitOpenError cb now), cb), 0)
  else
    let inner := retryOperation rc op ctx 0
    (cbExecute cbcfg cb now nowEnd inner.1, inner.2)

/-- An HTTP response as the `HttpClient` interface delivers it. -/
structure HttpResponse (α : Type) where
  data : α
  status : Int
deriving DecidableEq, Repr

/-- `MixpostClient.executeRequest`: with retry enabled, delegate to the
resilient executor and unwrap `response.data`; with retry disabled, attempt
the request exactly once and classify any failure through `enhanceError`
before re-raising. -/
def executeRequest {α : Type} (enableRetry : Bool) (rc : RetryConfig)
    (cbcfg : CircuitBreakerConfig) (cb : CBState) (now nowEnd : Nat)
    (op : Nat → Except JsVal (HttpResponse α)) (ctx : Option ErrorContext) :
    (Except EnhancedApiError α × CBState) × Nat :=
  if enableRetry then
    let r := executeWithRetry rc cbcfg cb now nowEnd op ctx
    ((r.1.1.map (·.data), r.1.2), r.2)
  else
    match op 0 with
    | .ok resp => ((.ok resp.data, cb), 1)
    | .error e => ((.error (enhanceError e ctx none), cb), 1)

/-! Helper lemmas shared by the claim theorems. -/

/-- The normalization loop drops exactly the `null`/`undefined` fields, so its
result is empty iff every field's value is `null` or `undefined`. -/
theorem normalizeErrors_eq_nil_iff (m : List (String × JsVal)) :
    normalizeErrors m = [] ↔ ∀ kv ∈ m, kv.2 = JsVal.JNull ∨ kv.2 = JsVal.JUndef := by
  unfold normalizeErrors
  rw [List.filterMap_eq_nil_iff]
  refine forall_congr' fun kv => forall_congr' fun _ => ?_
  obtain ⟨k, v⟩ := kv
  cases v <;> simp

/-- Fields holding an array survive normalization with the elementwise
`String` conversion. -/
theorem normalizeErrors_mem_arr (m : List (String × JsVal)) (k : String) (vs : List JsVal)
    (h : (k, JsVal.JArr vs) ∈ m) : (k, vs.map jsToString) ∈ normalizeErrors m :=
  List.mem_filterMap.mpr ⟨(k, JsVal.JArr vs), h, rfl⟩

/-- Fields holding a plain string survive normalization wrapped in a one
element list. -/
theorem normalizeErrors_mem_str (m : List (String × JsVal)) (k : String) (s : String)
    (h : (k, JsVal.JStr s) ∈ m) : (k, [s]) ∈ normalizeErrors m :=
  List.mem_filterMap.mpr ⟨(k, JsVal.JStr s), h, rfl⟩

/-- The extraction path of the response-body `message` string as
`getErrorMessage` reads it. -/
def bodyMsgOf (e : JsVal) : Option String :=
  (respData e).bind fun d =>
    if (objEntries d).isSome then jstrOf (jsField d "message") else none

/-- The extraction path of the response-body `error` string as
`getErrorMessage` reads it. -/
def bodyErrOf (e : JsVal) : Option String :=
  (respData e).bind fun d =>
    if (objEntries d).isSome then jstrOf (jsField d "error") else none

/-- The response-body fallback message is nonempty as long as the body does
not itself carry an empty-string `message` or `error` field. -/
theorem bodyMessage_ne_empty (e : JsVal) (h1 : bodyMsgOf e ≠ some "")
    (h2 : bodyErrOf e ≠ some "") : bodyMessage e ≠ "" := by
  unfold bodyMsgOf at h1
  unfold bodyErrOf at h2
  unfold bodyMessage
  split
  case h_2 => decide
  case h_1 d hd =>
    rw [hd] at h1 h2
    simp only [Option.some_bind] at h1 h2
    by_cases ho : (objEntries d).isSome = true
    · rw [if_pos ho] at h1 h2
      rw [if_pos ho]
      split
      next s hs =>
        rw [hs] at h1
        exact fun hcon => h1 (by rw [hcon])
      next hs =>
        split
        next s he =>
          rw [he] at h2
          exact fun hcon => h2 (by rw [hcon])
        next => decide
    · rw [if_neg ho]
      decide

/-!  C5: timeout classification. -/

/-- Concrete timeout-shaped raw failure used for claim C5. -/
def c5raw : JsVal := .JObj [("code", .JStr "ECONNABORTED"), ("message", .JStr "Request timeout")]

/-- C5 counterexample: a raw failure whose transport code is `ECONNABORTED`
and which carries no numeric status is classified with code `TIMEOUT`, but its
output status is the default 500, not the 408 the claim asserts. -/
theorem timeout_status_counterexample_C5 :
    (enhanceError c5raw none none).code = "TIMEOUT"
    ∧ (enhanceError c5raw none none).status = 500
    ∧ ¬(enhanceError c5raw none none).status = 408 := by
  refine ⟨rfl, rfl, by decide⟩

/-- C5 (amended): a transport code `ECONNABORTED` always yields code
`TIMEOUT`, regardless of any carried status; the output status is the carried
status itself (axios response status, else ApiError-like status), defaulting
to 500 — it is not forced to 408. -/
theorem timeout_classification_C5 (e : JsVal) (ctx : Option ErrorContext) (rcnt : Option Nat)
    (h : codeOf e = some "ECONNABORTED") :
    (enhanceError e ctx rcnt).code = "TIMEOUT"
    ∧ (enhanceError e ctx rcnt).status = (rawStatusOf e).getD 500 := by
  constructor
  · show getErrorCode (statusOf e) e = "TIMEOUT"
    rw [getErrorCode, if_pos h]
  · rfl

/-- C5 witness: the amended theorem applied to the concrete timeout failure. -/
theorem timeout_classification_C5_witness :
    (enhanceError c5raw none none).code = "TIMEOUT"
    ∧ (enhanceError c5raw none none).status = (rawStatusOf c5raw).getD 500 :=
  timeout_classification_C5 c5raw none none rfl

/-!  C6: backoff delay bounds. -/

/-- Retry configuration with the source's default delays, used for claim C6. -/
def c6rc : RetryConfig := { maxRetries := 3, baseDelay := 1000, maxDelay := 10000,
                            shouldRetry := fun _ => true }

/-- C6 counterexample: with the default delays (base 1000, max 10000), attempt
5 and jitter draw 0 (an admissible `Math.random()` value) the delay is clamped
to 10000, which is strictly below the claimed lower bound
`0.5 × base × 2^5 = 16000`; the claimed interval membership fails. -/
theorem backoff_lower_bound_counterexample_C6 :
    (0 : ℚ) ≤ 0 ∧ (0 : ℚ) < 1
    ∧ calculateBackoffDelay c6rc 5 0 = 10000
    ∧ ¬((1 / 2 : ℚ) * c6rc.baseDelay * 2 ^ 5 ≤ calculateBackoffDelay c6rc 5 0) := by
  refine ⟨le_refl 0, by norm_num, ?_, ?_⟩
  · norm_num [calculateBackoffDelay, c6rc]
  · norm_num [calculateBackoffDelay, c6rc]

/-- C6 (amended): for positive `baseDelay` and `maxDelay` and a jitter draw in
`[0, 1)`, the backoff delay for attempt `n` lies in
`[min (0.5 × base × 2^n) maxDelay, maxDelay]` and is strictly positive (the
claimed lower bound `0.5 × base × 2^n` holds only until it crosses the
`maxDelay` ceiling). -/
theorem backoff_bounds_C6 (rc : RetryConfig) (n : Nat) (r : ℚ)
    (hb : 0 < rc.baseDelay) (hm : 0 < rc.maxDelay) (h0 : 0 ≤ r) (h1 : r < 1) :
    min (rc.baseDelay * 2 ^ n / 2) rc.maxDelay ≤ calculateBackoffDelay rc n r
    ∧ calculateBackoffDelay rc n r ≤ rc.maxDelay
    ∧ 0 < calculateBackoffDelay rc n r := by
  have hE : (0 : ℚ) < rc.baseDelay * 2 ^ n := by positivity
  have hlow : rc.baseDelay * 2 ^ n / 2 ≤ rc.baseDelay * 2 ^ n * (1 / 2 + r * (1 / 2)) := by
    nlinarith
  have hpos : (0 : ℚ) < rc.baseDelay * 2 ^ n * (1 / 2 + r * (1 / 2)) := by nlinarith
  unfold calculateBackoffDelay
  exact ⟨min_le_min hlow le_rfl, min_le_right _ _, lt_min hpos hm⟩

/-- C6 witness: the amended bounds at attempt 0 with jitter draw 0 under the
default delays. -/
theorem backoff_bounds_C6_witness :
    min (c6rc.baseDelay * 2 ^ 0 / 2) c6rc.maxDelay ≤ calculateBackoffDelay c6rc 0 0
    ∧ calculateBackoffDelay c6rc 0 0 ≤ c6rc.maxDelay
    ∧ 0 < calculateBackoffDelay c6rc 0 0 :=
  backoff_bounds_C6 c6rc 0 0 (by norm_num [c6rc]) (by norm_num [c6rc]) le_rfl (by norm_num)

/-!  C7: validation-error extraction. -/

/-- Concrete ApiError-like failure whose validation map has one field holding
an empty array, used for claim C7. -/
def c7raw : JsVal :=
  .JObj [("status", .JNum 422), ("message", .JStr "v"), ("errors", .JObj [("a", .JArr [])])]

/-- C7 counterexample: a validation map whose only field holds an empty array
is NOT omitted — the field survives with an empty list and the map is kept,
contradicting the claim that a field with an empty normalized list (and then
the whole map) is omitted. -/
theorem validation_empty_field_counterexample_C7 :
    (enhanceError c7raw none none).errors = some [("a", ([] : List String))] := by
  decide

/-- C7 (amended): for a raw failure carrying a validation map `m` — whether
top-level on an ApiError-like failure or inside an axios response body — each
array value is normalized elementwise (an empty array is kept as an empty
list), `null`/`undefined` values drop their field, scalars are wrapped, and
the whole map is omitted exactly when every field's value is `null` or
`undefined`; the round-trip example `{a: ["x"], b: "y"}` yields
`{a: ["x"], b: ["y"]}` on both carriers. -/
theorem validation_extraction_C7 (st : Int) (msg : String) (m : List (String × JsVal)) :
    ((enhanceError (JsVal.JObj [("status", JsVal.JNum st), ("message", JsVal.JStr msg),
        ("errors", JsVal.JObj m)]) none none).errors = none ↔
      ∀ kv ∈ m, kv.2 = JsVal.JNull ∨ kv.2 = JsVal.JUndef)
    ∧ ((enhanceError (JsVal.JObj [("status", JsVal.JNum st), ("message", JsVal.JStr msg),
        ("errors", JsVal.JObj m)]) none none).errors =
        if normalizeErrors m = [] then none else some (normalizeErrors m))
    ∧ (∀ k (vs : List JsVal), (k, JsVal.JArr vs) ∈ m →
        (k, vs.map jsToString) ∈ normalizeErrors m)
    ∧ (∀ k s, (k, JsVal.JStr s) ∈ m → (k, [s]) ∈ normalizeErrors m)
    ∧ (enhanceError (JsVal.JObj [("status", JsVal.JNum 422), ("message", JsVal.JStr "v"),
        ("errors", JsVal.JObj [("a", JsVal.JArr [JsVal.JStr "x"]),
          ("b", JsVal.JStr "y")])]) none none).errors = some [("a", ["x"]), ("b", ["y"])]
    ∧ ((enhanceError (JsVal.JObj [("isAxiosError", JsVal.JBool true),
        ("response", JsVal.JObj [("data", JsVal.JObj [("errors", JsVal.JObj m)])])])
          none none).errors = none ↔
      ∀ kv ∈ m, kv.2 = JsVal.JNull ∨ kv.2 = JsVal.JUndef)
    ∧ ((enhanceError (JsVal.JObj [("isAxiosError", JsVal.JBool true),
        ("response", JsVal.JObj [("data", JsVal.JObj [("errors", JsVal.JObj m)])])])
          none none).errors =
        if normalizeErrors m = [] then none else some (normalizeErrors m))
    ∧ (enhanceError (JsVal.JObj [("isAxiosError", JsVal.JBool true),
        ("response", JsVal.JObj [("data", JsVal.JObj [("errors",
          JsVal.JObj [("a", JsVal.JArr [JsVal.JStr "x"]), ("b", JsVal.JStr "y")])])])])
          none none).errors = some [("a", ["x"]), ("b", ["y"])] := by
  have hmain : (enhanceError (JsVal.JObj [("status", JsVal.JNum st), ("message", JsVal.JStr msg),
      ("errors", JsVal.JObj m)]) none none).errors =
      if normalizeErrors m = [] then none else some (normalizeErrors m) := rfl
  have hmainAx : (enhanceError (JsVal.JObj [("isAxiosError", JsVal.JBool true),
      ("response", JsVal.JObj [("data", JsVal.JObj [("errors", JsVal.JObj m)])])])
        none none).errors =
      if normalizeErrors m = [] then none else some (normalizeErrors m) := rfl
  have hsplit : ((if normalizeErrors m = [] then (none : Option (List (String × List String)))
      else some (normalizeErrors m)) = none ↔
      ∀ kv ∈ m, kv.2 = JsVal.JNull ∨ kv.2 = JsVal.JUndef) := by
    by_cases hnil : normalizeErrors m = []
    · rw [if_pos hnil]
      exact iff_of_true rfl ((normalizeErrors_eq_nil_iff m).mp hnil)
    · rw [if_neg hnil]
      exact iff_of_false (by simp) fun hall => hnil ((normalizeErrors_eq_nil_iff m).mpr hall)
  refine ⟨?_, hmain, normalizeErrors_mem_arr m, normalizeErrors_mem_str m, by decide,
    ?_, hmainAx, by decide⟩
  · rw [hmain]
    exact hsplit
  · rw [hmainAx]
    exact hsplit

/-- C7 witness: the amended theorem applied to the round-trip map on both the
top-level and the response-body carrier. -/
theorem validation_extraction_C7_witness :
    ("a", ["x"]) ∈ normalizeErrors [("a", JsVal.JArr [JsVal.JStr "x"]), ("b", JsVal.JStr "y")]
    ∧ (enhanceError (JsVal.JObj [("status", JsVal.JNum 422), ("message", JsVal.JStr "v"),
        ("errors", JsVal.JObj [("a", JsVal.JArr [JsVal.JStr "x"]),
          ("b", JsVal.JStr "y")])]) none none).errors = some [("a", ["x"]), ("b", ["y"])]
    ∧ (enhanceError (JsVal.JObj [("isAxiosError", JsVal.JBool true),
        ("response", JsVal.JObj [("data", JsVal.JObj [("errors",
          JsVal.JObj [("a", JsVal.JArr [JsVal.JStr "x"]), ("b", JsVal.JStr "y")])])])])
          none none).errors = some [("a", ["x"]), ("b", ["y"])] := by
  have h := validation_extraction_C7 422 "v"
    [("a", JsVal.JArr [JsVal.JStr "x"]), ("b", JsVal.JStr "y")]
  exact ⟨h.2.2.1 "a" [JsVal.JStr "x"] (List.Mem.head _), h.2.2.2.2.1, h.2.2.2.2.2.2.2⟩

/-!  C8: totality and nonempty message. -/

/-- Concrete axios failure whose response body carries an empty-string
message, used for claim C8. -/
def c8raw : JsVal :=
  .JObj [("isAxiosError", .JBool true),
         ("response", .JObj [("data", .JObj [("message", .JStr "")])])]

/-- An axios failure whose config carries a numeric `method`, used for claim
C8: on this input the source's `enhanceError` raises a TypeError at the method
upper-casing. -/
def c8throw : JsVal :=
  .JObj [("isAxiosError", .JBool true), ("config", .JObj [("method", .JNum 5)])]

/-- C8 counterexample: both conjuncts of the claim fail. An axios failure
whose response body carries `message: ""` produces an enhanced error whose
message is the empty string, and an axios failure carrying a numeric
`config.method` lies in the throw domain of the source's `enhanceError` (the
method upper-casing raises a TypeError), so enhance is not total either. -/
theorem empty_message_counterexample_C8 :
    (enhanceError c8raw none none).message = ""
    ∧ enhanceErrorThrows c8throw none = true := by
  exact ⟨by decide, rfl⟩

/-- C8 (amended): `enhanceError` returns a value for every input except the
single TypeError path at the method upper-casing: it throws exactly when the
caller supplies no method and the raw axios failure carries a non-string,
non-null `config.method` — so a caller-supplied method, or the absence of an
axios config, never throws. Off the throw path the returned message is
nonempty whenever the axios response body does not itself carry an
empty-string `message` or `error` field; in particular the empty object never
throws and falls back to the fixed generic string. -/
theorem message_nonempty_C8 (e : JsVal) (ctx : Option ErrorContext) (rcnt : Option Nat) :
    (∀ s, ctx.bind (·.method) = some s → enhanceErrorThrows e ctx = false)
    ∧ (axConfig e = none → enhanceErrorThrows e ctx = false)
    ∧ (ctx.bind (·.method) = none →
        ∀ v, (axConfig e).bind (fun c => jsField c "method") = some v →
          (∀ s, v ≠ JsVal.JStr s) → v ≠ JsVal.JNull → enhanceErrorThrows e ctx = true)
    ∧ (enhanceErrorThrows e ctx = false → bodyMsgOf e ≠ some "" → bodyErrOf e ≠ some "" →
        (enhanceError e ctx rcnt).message ≠ "")
    ∧ enhanceErrorThrows (JsVal.JObj []) none = false
    ∧ (enhanceError (JsVal.JObj []) none none).message = "An unexpected error occurred" := by
  refine ⟨?_, ?_, ?_, ?_, rfl, rfl⟩
  · intro s hs
    simp only [enhanceErrorThrows, hs]
  · intro hax
    simp only [enhanceErrorThrows, hax, Option.none_bind]
    cases hcm : ctx.bind (·.method) <;> simp [hcm]
  · intro hc v hv hstr hnull
    cases v with
    | JStr s => exact absurd rfl (hstr s)
    | JNull => exact absurd rfl hnull
    | JNum n => simp only [enhanceErrorThrows, hc, hv]
    | JBool b => simp only [enhanceErrorThrows, hc, hv]
    | JUndef => simp only [enhanceErrorThrows, hc, hv]
    | JArr l => simp only [enhanceErrorThrows, hc, hv]
    | JObj m2 => simp only [enhanceErrorThrows, hc, hv]
  · intro _hnothrow h1 h2
    have hm : (enhanceError e ctx rcnt).message = getErrorMessage e := rfl
    rw [hm, getErrorMessage]
    split
    next s hmsg =>
      by_cases hs : s = ""
      · rw [if_pos hs]
        exact bodyMessage_ne_empty e h1 h2
      · rw [if_neg hs]
        exact hs
    next hmsg => exact bodyMessage_ne_empty e h1 h2

/-- C8 witness: the empty object lies off the throw path and yields the
generic, nonempty message, while the numeric-method axios failure is proved to
lie on it. -/
theorem message_nonempty_C8_witness :
    (enhanceError (JsVal.JObj []) none none).message ≠ ""
    ∧ enhanceErrorThrows c8throw none = true := by
  constructor
  · exact (message_nonempty_C8 (JsVal.JObj []) none none).2.2.2.1 rfl (by decide) (by decide)
  · exact (message_nonempty_C8 c8throw none none).2.2.1 rfl (JsVal.JNum 5) rfl
      (fun s h => JsVal.noConfusion h) (fun h => JsVal.noConfusion h)

/-!  C2: retryability. -/

/-- Concrete raw failure that is simultaneously axios-shaped (response status
400) and ApiError-like (top-level status 429), used for claim C2. -/
def c2raw : JsVal :=
  .JObj [("isAxiosError", .JBool true), ("response", .JObj [("status", .JNum 400)]),
         ("status", .JNum 429), ("message", .JStr "m")]

/-- C2 counterexample: a raw failure carrying an axios response status 400 and
a top-level status 429 is classified with output status 400 (a 4xx that is
neither 429 nor 408) and a non-circuit-open code, yet its retryable flag is
true — so retryability is not a function of the classified output status and
code as the claim states. -/
theorem retryable_counterexample_C2 :
    (enhanceError c2raw none none).status = 400
    ∧ (enhanceError c2raw none none).code = "BAD_REQUEST"
    ∧ ¬(enhanceError c2raw none none).code = "CIRCUIT_OPEN"
    ∧ (enhanceError c2raw none none).retryable = true := by
  exact ⟨rfl, rfl, by decide, rfl⟩

/-- C2 (amended): the retryable flag produced by enhance is a pure function of
the raw failure's `code` property and of the status the retryability check
itself extracts (top-level ApiError-like status first, axios response status
second — the opposite precedence from the output status field): `CIRCUIT_OPEN`
is never retryable; otherwise a carried 4xx status is retryable exactly for
429 and 408, and a missing carried status or one at least 500 is retryable. -/
theorem retryable_of_code_and_status_C2 (e : JsVal) (ctx : Option ErrorContext)
    (rcnt : Option Nat) :
    (codeOf e = some "CIRCUIT_OPEN" → (enhanceError e ctx rcnt).retryable = false)
    ∧ (codeOf e ≠ some "CIRCUIT_OPEN" →
        (∀ s : Int, retryStatusOf e = some s → 400 ≤ s → s < 500 →
          ((enhanceError e ctx rcnt).retryable = true ↔ s = 429 ∨ s = 408))
        ∧ (retryStatusOf e = none → (enhanceError e ctx rcnt).retryable = true)
        ∧ (∀ s : Int, retryStatusOf e = some s → 500 ≤ s →
            (enhanceError e ctx rcnt).retryable = true)) := by
  have hr : (enhanceError e ctx rcnt).retryable = isRetryable e := rfl
  constructor
  · intro h
    rw [hr, isRetryable, if_pos h]
  · intro h
    refine ⟨?_, ?_, ?_⟩
    · intro s hs h4 h5
      rw [hr, isRetryable, if_neg h, hs]
      simp only [if_pos (And.intro h4 h5)]
      simp [decide_eq_true_eq]
    · intro hs
      rw [hr, isRetryable, if_neg h, hs]
    · intro s hs h5
      rw [hr, isRetryable, if_neg h, hs]
      simp only [if_neg (by omega : ¬(400 ≤ s ∧ s < 500))]
      simpa using h5

/-- Concrete circuit-open-coded failure for the C2 witness. -/
def c2circ : JsVal := .JObj [("code", .JStr "CIRCUIT_OPEN")]

/-- Concrete rate-limited failure for the C2 witness. -/
def c2rate : JsVal := .JObj [("status", .JNum 429), ("message", .JStr "r")]

/-- C2 witness: the amended characterization applied at a circuit-open-coded
failure and at a 429 failure. -/
theorem retryable_of_code_and_status_C2_witness :
    (enhanceError c2circ none none).retryable = false
    ∧ (enhanceError c2rate none none).retryable = true := by
  constructor
  · exact (retryable_of_code_and_status_C2 c2circ none none).1 rfl
  · exact (((retryable_of_code_and_status_C2 c2rate none none).2 (by decide)).1 429 rfl
      (by norm_num) (by norm_num)).mpr (Or.inl rfl)

/-!  C4: the status-to-code table. -/

/-- C4: for a raw failure carrying an HTTP status (axios response status
first, top-level ApiError-like status second) whose `code` property matches no
transport or circuit-open rule and which is not a bare network error, the
output status equals the carried status and the output code follows the
specified table, with the two default rows for unlisted statuses. -/
theorem status_code_table_C4 (e : JsVal) (ctx : Option ErrorContext) (rcnt : Option Nat)
    (s : Int) (hs : rawStatusOf e = some s)
    (h1 : codeOf e ≠ some "ECONNABORTED")
    (h2 : codeOf e ≠ some "ECONNREFUSED")
    (h3 : codeOf e ≠ some "CIRCUIT_OPEN")
    (h4 : ¬(hasResp e = false ∧ msgOf e = some "Network Error")) :
    (enhanceError e ctx rcnt).status = s
    ∧ (s = 400 → (enhanceError e ctx rcnt).code = "BAD_REQUEST")
    ∧ (s = 401 → (enhanceError e ctx rcnt).code = "UNAUTHORIZED")
    ∧ (s = 403 → (enhanceError e ctx rcnt).code = "FORBIDDEN")
    ∧ (s = 404 → (enhanceError e ctx rcnt).code = "NOT_FOUND")
    ∧ (s = 405 → (enhanceError e ctx rcnt).code = "METHOD_NOT_ALLOWED")
    ∧ (s = 409 → (enhanceError e ctx rcnt).code = "CONFLICT")
    ∧ (s = 422 → (enhanceError e ctx rcnt).code = "UNPROCESSABLE_ENTITY")
    ∧ (s = 429 → (enhanceError e ctx rcnt).code = "TOO_MANY_REQUESTS")
    ∧ (s = 500 → (enhanceError e ctx rcnt).code = "INTERNAL_SERVER_ERROR")
    ∧ (s = 502 → (enhanceError e ctx rcnt).code = "BAD_GATEWAY")
    ∧ (s = 503 → (enhanceError e ctx rcnt).code = "SERVICE_UNAVAILABLE")
    ∧ (s = 504 → (enhanceError e ctx rcnt).code = "GATEWAY_TIMEOUT")
    ∧ (s ∉ ([400, 401, 403, 404, 405, 409, 422, 429, 500, 502, 503, 504] : List Int) →
        (500 ≤ s → (enhanceError e ctx rcnt).code = "INTERNAL_SERVER_ERROR")
        ∧ (s < 500 → (enhanceError e ctx rcnt).code = "BAD_REQUEST")) := by
  have hst : (enhanceError e ctx rcnt).status = s := by
    show statusOf e = s
    rw [statusOf, hs]
    rfl
  have hcode : (enhanceError e ctx rcnt).code = getErrorCode s e := by
    show getErrorCode (statusOf e) e = getErrorCode s e
    rw [show statusOf e = s from by rw [statusOf, hs]; rfl]
  have htable : getErrorCode s e =
      (if s = 400 then "BAD_REQUEST"
       else if s = 401 then "UNAUTHORIZED"
       else if s = 403 then "FORBIDDEN"
       else if s = 404 then "NOT_FOUND"
       else if s = 405 then "METHOD_NOT_ALLOWED"
       else if s = 409 then "CONFLICT"
       else if s = 422 then "UNPROCESSABLE_ENTITY"
       else if s = 429 then "TOO_MANY_REQUESTS"
       else if s = 500 then "INTERNAL_SERVER_ERROR"
       else if s = 502 then "BAD_GATEWAY"
       else if s = 503 then "SERVICE_UNAVAILABLE"
       else if s = 504 then "GATEWAY_TIMEOUT"
       else if 500 ≤ s then "INTERNAL_SERVER_ERROR"
       else "BAD_REQUEST") := by
    rw [getErrorCode, if_neg h1, if_neg h2, if_neg h3, if_neg h4]
  refine ⟨hst, ?_, ?_, ?_, ?_, ?_, ?_, ?_, ?_, ?_, ?_, ?_, ?_, ?_⟩
  on_goal 13 =>
    intro hsv
    rw [hcode, htable]
    simp only [List.mem_cons, List.not_mem_nil, or_false, not_or] at hsv
    obtain ⟨n1, n2, n3, n4, n5, n6, n7, n8, n9, n10, n11, n12⟩ := hsv
    rw [if_neg n1, if_neg n2, if_neg n3, if_neg n4, if_neg n5, if_neg n6, if_neg n7,
      if_neg n8, if_neg n9, if_neg n10, if_neg n11, if_neg n12]
    constructor
    · intro hge
      rw [if_pos hge]
    · intro hlt
      rw [if_neg (by omega)]
  all_goals intro hsv
  all_goals rw [hcode, htable, hsv]
  all_goals norm_num

/-- Concrete axios 404 failure for the C4 witness. -/
def c4raw : JsVal :=
  .JObj [("isAxiosError", .JBool true), ("response", .JObj [("status", .JNum 404)])]

/-- C4 witness: the table theorem applied to a concrete 404 response. -/
theorem status_code_table_C4_witness :
    (enhanceError c4raw none none).status = 404
    ∧ (enhanceError c4raw none none).code = "NOT_FOUND" := by
  have h := status_code_table_C4 c4raw none none 404 rfl (by decide) (by decide) (by decide)
    (by decide)
  exact ⟨h.1, h.2.2.2.2.1 rfl⟩

/-!  C3: retry attempt counting and termination. -/

/-- The attempt count of the retry recursion is bounded by the remaining
budget plus one, from any starting attempt number. -/
theorem retryOperation_attempts_le {α : Type} (rc : RetryConfig) (op : Nat → Except JsVal α)
    (ctx : Option ErrorContext) :
    ∀ j i, rc.maxRetries - i ≤ j → (retryOperation rc op ctx i).2 ≤ rc.maxRetries - i + 1 := by
  intro j
  induction j with
  | zero =>
    intro i hi
    unfold retryOperation
    split
    next v heq =>
      show 1 ≤ rc.maxRetries - i + 1
      omega
    next raw heq =>
      rw [dif_neg fun hcon => absurd hcon.1 (by omega)]
      show 1 ≤ rc.maxRetries - i + 1
      omega
  | succ j ih =>
    intro i hi
    unfold retryOperation
    split
    next v heq =>
      show 1 ≤ rc.maxRetries - i + 1
      omega
    next raw heq =>
      by_cases hc : i < rc.maxRetries ∧ rc.shouldRetry (enhanceError raw ctx (some i)) = true
      · rw [dif_pos hc]
        have hrec := ih (i + 1) (by omega)
        show (retryOperation rc op ctx (i + 1)).2 + 1 ≤ rc.maxRetries - i + 1
        omega
      · rw [dif_neg hc]
        show 1 ≤ rc.maxRetries - i + 1
        omega

/-- Unfolding equation of the retry recursion on a failing attempt. -/
theorem retryOperation_error_eq {α : Type} (rc : RetryConfig) (op : Nat → Except JsVal α)
    (ctx : Option ErrorContext) (i : Nat) (raw : JsVal) (hraw : op i = Except.error raw) :
    retryOperation rc op ctx i =
      if i < rc.maxRetries ∧ rc.shouldRetry (enhanceError raw ctx (some i)) = true then
        ((retryOperation rc op ctx (i + 1)).1, (retryOperation rc op ctx (i + 1)).2 + 1)
      else (Except.error (enhanceError raw ctx (some i)), 1) := by
  conv_lhs => unfold retryOperation
  split
  next v heq =>
    rw [hraw] at heq
    cases heq
  next raw2 heq =>
    rw [hraw] at heq
    injection heq with h
    subst h
    by_cases hc : i < rc.maxRetries ∧ rc.shouldRetry (enhanceError raw ctx (some i)) = true
    · rw [dif_pos hc, if_pos hc]
    · rw [dif_neg hc, if_neg hc]

/-- When every attempt up to the budget fails and the predicate accepts each
classified failure, the recursion from attempt `i` makes exactly
`maxRetries - i + 1` attempts and ends in an error. -/
theorem retryOperation_attempts_exact {α : Type} (rc : RetryConfig) (op : Nat → Except JsVal α)
    (ctx : Option ErrorContext)
    (hall : ∀ k, k ≤ rc.maxRetries → ∃ raw, op k = Except.error raw ∧
      rc.shouldRetry (enhanceError raw ctx (some k)) = true) :
    ∀ j i, rc.maxRetries - i = j → i ≤ rc.maxRetries →
      (retryOperation rc op ctx i).2 = rc.maxRetries - i + 1 ∧
      ∃ enh, (retryOperation rc op ctx i).1 = Except.error enh := by
  intro j
  induction j with
  | zero =>
    intro i hj hi
    obtain ⟨raw, hraw, hsr⟩ := hall i hi
    rw [retryOperation_error_eq rc op ctx i raw hraw]
    rw [if_neg fun hcon => absurd hcon.1 (by omega)]
    refine ⟨?_, _, rfl⟩
    show 1 = rc.maxRetries - i + 1
    omega
  | succ j ih =>
    intro i hj hi
    have hlt : i < rc.maxRetries := by omega
    obtain ⟨raw, hraw, hsr⟩ := hall i (le_of_lt hlt)
    obtain ⟨hcount, enh, hres⟩ := ih (i + 1) (by omega) (by omega)
    rw [retryOperation_error_eq rc op ctx i raw hraw]
    rw [if_pos ⟨hlt, hsr⟩]
    refine ⟨?_, enh, hres⟩
    show (retryOperation rc op ctx (i + 1)).2 + 1 = rc.maxRetries - i + 1
    omega

/-- C3: when every attempt fails with a failure the retry predicate accepts,
the orchestrator makes exactly `maxRetries + 1` attempts and then surfaces a
single enhanced error; when the predicate rejects the first classified
failure, exactly one attempt is made regardless of `maxRetries`; and the
recursion always terminates with at most `maxRetries + 1` attempts. -/
theorem retry_attempt_count_C3 {α : Type} (rc : RetryConfig) (op : Nat → Except JsVal α)
    (ctx : Option ErrorContext) :
    ((∀ k, k ≤ rc.maxRetries → ∃ raw, op k = Except.error raw ∧
        rc.shouldRetry (enhanceError raw ctx (some k)) = true) →
      (retryOperation rc op ctx 0).2 = rc.maxRetries + 1 ∧
      ∃ enh, (retryOperation rc op ctx 0).1 = Except.error enh)
    ∧ (∀ raw, op 0 = Except.error raw →
        rc.shouldRetry (enhanceError raw ctx (some 0)) = false →
        (retryOperation rc op ctx 0).2 = 1 ∧
        (retryOperation rc op ctx 0).1 = Except.error (enhanceError raw ctx (some 0)))
    ∧ (retryOperation rc op ctx 0).2 ≤ rc.maxRetries + 1 := by
  refine ⟨?_, ?_, ?_⟩
  · intro hall
    obtain ⟨hcount, enh, hres⟩ :=
      retryOperation_attempts_exact rc op ctx hall rc.maxRetries 0 (by omega) (by omega)
    exact ⟨by omega, enh, hres⟩
  · intro raw hraw hrej
    rw [retryOperation_error_eq rc op ctx 0 raw hraw]
    rw [if_neg fun hcon => by rw [hrej] at hcon; exact absurd hcon.2 (by simp)]
    exact ⟨rfl, rfl⟩
  · have h := retryOperation_attempts_le rc op ctx rc.maxRetries 0 (by omega)
    omega

/-- Retry configuration whose predicate accepts everything, for the C3
witness. -/
def c3rcAll : RetryConfig :=
  { maxRetries := 2, baseDelay := 1000, maxDelay := 10000, shouldRetry := fun _ => true }

/-- An operation failing on every attempt with a 500 failure, for the C3
witness. -/
def c3opAll : Nat → Except JsVal Nat :=
  fun _ => .error (.JObj [("status", .JNum 500), ("message", .JStr "Server error")])

/-- An operation failing on every attempt with a 400 failure, for the C3
witness. -/
def c3op400 : Nat → Except JsVal Nat :=
  fun _ => .error (.JObj [("status", .JNum 400), ("message", .JStr "Bad request")])

/-- C3 witness: with `maxRetries = 2` and an always-accepted failure exactly 3
attempts are made; under the source's default predicate a status-400 failure
makes exactly 1 attempt even with `maxRetries = 3`. -/
theorem retry_attempt_count_C3_witness :
    (retryOperation c3rcAll c3opAll none 0).2 = 2 + 1
    ∧ (retryOperation defaultRetryConfig c3op400 none 0).2 = 1 := by
  constructor
  · exact ((retry_attempt_count_C3 c3rcAll c3opAll none).1
      (fun k _hk => ⟨.JObj [("status", .JNum 500), ("message", .JStr "Server error")],
        rfl, rfl⟩)).1
  · exact ((retry_attempt_count_C3 defaultRetryConfig c3op400 none).2.1
      (.JObj [("status", .JNum 400), ("message", .JStr "Bad request")]) rfl (by decide)).1

/-!  C1: the circuit-breaker state machine. -/

/-- C1: the breaker starts CLOSED with zero failures; every failure increments
the counter and reaching the threshold opens the circuit recording the next
attempt time `now + resetTimeout`; while OPEN before the reset timeout every
call yields the synthesized CIRCUIT_OPEN error (status 503, suggestion naming
`ceil((nextAttemptTime - now)/1000)` seconds) without consuming the wrapped
outcome; once the timeout has elapsed the next call transitions to HALF_OPEN
with the success counter reset and is attempted; three consecutive HALF_OPEN
successes close the circuit resetting the failure counter; and a CLOSED
success decrements the failure counter, floored at zero. -/
theorem circuit_breaker_machine_C1 {α : Type} (cfg : CircuitBreakerConfig) (s : CBState)
    (now nowEnd t n1 n2 n3 m1 m2 m3 : Nat) (o o2 : Except EnhancedApiError α) (v : α)
    (err : EnhancedApiError) :
    (CBState.init.state = CBPhase.CLOSED ∧ CBState.init.failures = 0)
    ∧ ((CBState.onFailure cfg s nowEnd).failures = s.failures + 1
       ∧ (cfg.failureThreshold ≤ s.failures + 1 →
           (CBState.onFailure cfg s nowEnd).state = CBPhase.OPEN
           ∧ (CBState.onFailure cfg s nowEnd).nextAttemptTime =
               some (nowEnd + cfg.resetTimeout)))
    ∧ (s.state = CBPhase.OPEN → s.nextAttemptTime = some t → now < t →
        cbExecute cfg s now nowEnd o = (.error (createCircuitOpenError s now), s)
        ∧ cbExecute cfg s now nowEnd o = cbExecute cfg s now nowEnd o2
        ∧ (createCircuitOpenError s now).code = "CIRCUIT_OPEN"
        ∧ (createCircuitOpenError s now).status = 503
        ∧ (createCircuitOpenError s now).retryable = false
        ∧ (createCircuitOpenError s now).suggestion =
            "Service is experiencing issues. Circuit will reset in " ++
              toString ((t - now + 999) / 1000) ++ " seconds")
    ∧ (s.state = CBPhase.OPEN → s.nextAttemptTime = some t → t ≤ now →
        ((cbExecute cfg s now nowEnd (Except.ok v)).1 = Except.ok v
         ∧ (cbExecute cfg s now nowEnd (Except.ok v)).2.state = CBPhase.HALF_OPEN
         ∧ (cbExecute cfg s now nowEnd (Except.ok v)).2.successCount = 1)
        ∧ ((cbExecute cfg s now nowEnd (Except.error err : Except EnhancedApiError α)).1 =
              Except.error err
           ∧ (cbExecute cfg s now nowEnd
                (Except.error err : Except EnhancedApiError α)).2.failures = s.failures + 1))
    ∧ (s.state = CBPhase.HALF_OPEN → s.successCount = 0 →
        (cbExecute cfg ((cbExecute cfg ((cbExecute cfg s n1 m1 (Except.ok v)).2) n2 m2
            (Except.ok v)).2) n3 m3 (Except.ok v)).2.state = CBPhase.CLOSED
        ∧ (cbExecute cfg ((cbExecute cfg ((cbExecute cfg s n1 m1 (Except.ok v)).2) n2 m2
            (Except.ok v)).2) n3 m3 (Except.ok v)).2.failures = 0)
    ∧ (s.state = CBPhase.CLOSED →
        (CBState.onSuccess s).failures = s.failures - 1
        ∧ (CBState.onSuccess s).state = CBPhase.CLOSED) := by
  have onFailure_failures : ∀ (s2 : CBState) (k : Nat),
      (CBState.onFailure cfg s2 k).failures = s2.failures + 1 := by
    intro s2 k
    unfold CBState.onFailure
    split <;> rfl
  refine ⟨⟨rfl, rfl⟩, ⟨?_, ?_⟩, ?_, ?_, ?_, ?_⟩
  · exact onFailure_failures s nowEnd
  · intro hth
    unfold CBState.onFailure
    rw [if_pos hth]
    exact ⟨rfl, rfl⟩
  · intro h1 h2 h3
    have hcond : s.state = CBPhase.OPEN ∧ now < s.nextAttemptTime.getD 0 := by
      refine ⟨h1, ?_⟩
      rw [h2]
      exact h3
    refine ⟨?_, ?_, rfl, rfl, rfl, ?_⟩
    · rw [cbExecute, if_pos hcond]
    · rw [cbExecute, if_pos hcond, cbExecute, if_pos hcond]
    · unfold createCircuitOpenError ceilSeconds
      rw [h2]
      simp
  · intro h1 h2 h3
    obtain ⟨st, f, sc, lt, nt⟩ := s
    simp only at h1 h2
    subst h1
    subst h2
    have hnl : ¬now < t := by omega
    constructor
    · refine ⟨?_, ?_, ?_⟩ <;> simp [cbExecute, CBState.onSuccess, hnl]
    · constructor
      · simp [cbExecute, hnl]
      · simp [cbExecute, hnl, onFailure_failures]
  · intro h1 h2
    obtain ⟨st, f, sc, lt, nt⟩ := s
    simp only at h1 h2
    subst h1
    subst h2
    simp [cbExecute, CBState.onSuccess]
  · intro h1
    unfold CBState.onSuccess
    rw [if_neg (by rw [h1]; simp), if_pos h1]
    refine ⟨rfl, ?_⟩
    show s.state = CBPhase.CLOSED
    exact h1

/-- Circuit-breaker configuration with the source's defaults, for the C1
witness. -/
def c1cfg : CircuitBreakerConfig := ⟨5, 60000, 60000⟩

/-- A representative OPEN breaker state, for the C1 witness. -/
def c1open : CBState :=
  { state := .OPEN, failures := 5, successCount := 0, lastFailureTime := some 0,
    nextAttemptTime := some 60000 }

/-- A representative HALF_OPEN breaker state, for the C1 witness. -/
def c1half : CBState :=
  { state := .HALF_OPEN, failures := 5, successCount := 0, lastFailureTime := some 0,
    nextAttemptTime := some 60000 }

/-- A CLOSED state one failure below the threshold, for the C1 witness. -/
def c1closed4 : CBState :=
  { state := .CLOSED, failures := 4, successCount := 0, lastFailureTime := none,
    nextAttemptTime := none }

/-- C1 witness: the state-machine theorem applied at concrete states — a
failure at the threshold opens the circuit, an OPEN breaker short-circuits
with the 59-second suggestion, the elapsed timeout admits the call in
HALF_OPEN, and three HALF_OPEN successes close the circuit with zero
failures. -/
theorem circuit_breaker_machine_C1_witness :
    (CBState.onFailure c1cfg c1closed4 7).state = CBPhase.OPEN
    ∧ (cbExecute c1cfg c1open 1000 1000 (Except.ok (0 : Nat))).1 =
        Except.error (createCircuitOpenError c1open 1000)
    ∧ (createCircuitOpenError c1open 1000).suggestion =
        "Service is experiencing issues. Circuit will reset in 59 seconds"
    ∧ (cbExecute c1cfg c1open 60000 60000 (Except.ok (0 : Nat))).2.state = CBPhase.HALF_OPEN
    ∧ (cbExecute c1cfg ((cbExecute c1cfg ((cbExecute c1cfg c1half 0 0 (Except.ok (0 : Nat))).2)
        0 0 (Except.ok 0)).2) 0 0 (Except.ok 0)).2.state = CBPhase.CLOSED := by
  refine ⟨?_, ?_, ?_, ?_, ?_⟩
  · exact ((circuit_breaker_machine_C1 (α := Nat) c1cfg c1closed4 0 7 0 0 0 0 0 0 0 (.ok 0)
      (.ok 0) 0 (createCircuitOpenError c1open 0)).2.1.2 (by decide)).1
  · exact ((circuit_breaker_machine_C1 (α := Nat) c1cfg c1open 1000 1000 60000 0 0 0 0 0 0
      (.ok 0) (.ok 0) 0 (createCircuitOpenError c1open 0)).2.2.1 rfl rfl (by decide)).1.symm ▸
      rfl
  · have h := ((circuit_breaker_machine_C1 (α := Nat) c1cfg c1open 1000 1000 60000 0 0 0 0 0 0
      (.ok 0) (.ok 0) 0 (createCircuitOpenError c1open 0)).2.2.1 rfl rfl
      (by decide)).2.2.2.2.2
    rw [h]
    decide
  · exact (((circuit_breaker_machine_C1 (α := Nat) c1cfg c1open 60000 60000 60000 0 0 0 0 0 0
      (.ok 0) (.ok 0) 0 (createCircuitOpenError c1open 0)).2.2.2.1 rfl rfl
      (by decide)).1).2.1
  · exact ((circuit_breaker_machine_C1 (α := Nat) c1cfg c1half 0 0 60000 0 0 0 0 0 0
      (.ok 0) (.ok 0) 0 (createCircuitOpenError c1open 0)).2.2.2.2.1 rfl rfl).1

/-!  C10: failures stay at or above the threshold outside CLOSED. -/

/-- One breaker call preserves the invariant that any non-CLOSED state holds
at least `failureThreshold` recorded failures. -/
theorem cbStep_preserves_inv (cfg : CircuitBreakerConfig) (s : CBState) (now nowEnd : Nat)
    (b : Bool) (h : s.state ≠ CBPhase.CLOSED → cfg.failureThreshold ≤ s.failures) :
    (cbStep cfg s now nowEnd b).state ≠ CBPhase.CLOSED →
      cfg.failureThreshold ≤ (cbStep cfg s now nowEnd b).failures := by
  obtain ⟨st, f, sc, lt, nt⟩ := s
  simp only at h
  cases st <;> cases b <;>
    simp only [cbStep, cbExecute, CBState.onSuccess, CBState.onFailure] <;>
    split_ifs <;>
    simp_all <;>
    omega

/-- The invariant holds in every reachable breaker state. -/
theorem cbReachable_inv (cfg : CircuitBreakerConfig) (s : CBState) (h : CBReachable cfg s) :
    s.state ≠ CBPhase.CLOSED → cfg.failureThreshold ≤ s.failures := by
  induction h with
  | refl => intro hc; exact absurd rfl hc
  | tail hr step ih =>
    obtain ⟨now, nowEnd, b, rfl⟩ := step
    exact cbStep_preserves_inv cfg _ now nowEnd b ih

/-- C10: in every reachable HALF_OPEN state the failure counter is still at
least `failureThreshold` (it is reset neither on opening nor on the
OPEN→HALF_OPEN transition), and consequently, for any configuration with
`failureThreshold ≥ 1`, a single failure during HALF_OPEN always re-opens the
circuit immediately. -/
theorem half_open_invariant_C10 (cfg : CircuitBreakerConfig) (s : CBState)
    (h : CBReachable cfg s) (hh : s.state = CBPhase.HALF_OPEN) :
    cfg.failureThreshold ≤ s.failures
    ∧ (1 ≤ cfg.failureThreshold →
        ∀ now nowEnd, (cbStep cfg s now nowEnd false).state = CBPhase.OPEN) := by
  have hinv := cbReachable_inv cfg s h (by rw [hh]; simp)
  refine ⟨hinv, ?_⟩
  intro _ now nowEnd
  obtain ⟨st, f, sc, lt, nt⟩ := s
  simp only at hh hinv
  subst hh
  simp only [cbStep, cbExecute, CBState.onFailure]
  split_ifs <;> simp_all <;> omega

/-- Circuit-breaker configuration with threshold 1, for the C10 witness. -/
def c10cfg : CircuitBreakerConfig := ⟨1, 10, 0⟩

/-- C10 witness: after one failure (opening the circuit) and one successful
trial call at the reset time, the breaker is HALF_OPEN with its failure
counter still at the threshold, and one failing call re-opens it. -/
theorem half_open_invariant_C10_witness :
    c10cfg.failureThreshold ≤
      (cbStep c10cfg (cbStep c10cfg CBState.init 0 0 false) 10 10 true).failures
    ∧ (cbStep c10cfg (cbStep c10cfg (cbStep c10cfg CBState.init 0 0 false) 10 10 true)
        99 99 false).state = CBPhase.OPEN := by
  have hreach : CBReachable c10cfg
      (cbStep c10cfg (cbStep c10cfg CBState.init 0 0 false) 10 10 true) :=
    Relation.ReflTransGen.tail
      (Relation.ReflTransGen.single ⟨0, 0, false, rfl⟩) ⟨10, 10, true, rfl⟩
  have h := half_open_invariant_C10 c10cfg _ hreach (by decide)
  exact ⟨h.1, h.2 (by decide) 99 99⟩

/-!  C9: the retry-disabled execution path. -/

/-- C9: with resilience disabled, `executeRequest` makes exactly one attempt
for any retry or breaker configuration, leaves the breaker state untouched,
returns the response payload unchanged on success, and on failure throws
exactly the classification of the raw failure. -/
theorem retry_disabled_single_attempt_C9 {α : Type} (rc : RetryConfig)
    (cbcfg : CircuitBreakerConfig) (cb : CBState) (now nowEnd : Nat)
    (op : Nat → Except JsVal (HttpResponse α)) (ctx : Option ErrorContext) :
    (executeRequest false rc cbcfg cb now nowEnd op ctx).2 = 1
    ∧ (executeRequest false rc cbcfg cb now nowEnd op ctx).1.2 = cb
    ∧ (∀ resp, op 0 = Except.ok resp →
        (executeRequest false rc cbcfg cb now nowEnd op ctx).1.1 = Except.ok resp.data)
    ∧ (∀ e, op 0 = Except.error e →
        (executeRequest false rc cbcfg cb now nowEnd op ctx).1.1 =
          Except.error (enhanceError e ctx none)) := by
  unfold executeRequest
  rw [if_neg (by simp)]
  refine ⟨?_, ?_, ?_, ?_⟩
  · split <;> rfl
  · split <;> rfl
  · intro resp hresp
    split
    next r heq =>
      rw [hresp] at heq
      injection heq with h2
      subst h2
      rfl
    next e heq =>
      rw [hresp] at heq
      cases heq
  · intro e he
    split
    next r heq =>
      rw [he] at heq
      cases heq
    next e2 heq =>
      rw [he] at heq
      injection heq with h2
      subst h2
      rfl

/-- Retry configuration for the C9 witness. -/
def c9rc : RetryConfig :=
  { maxRetries := 3, baseDelay := 1000, maxDelay := 10000, shouldRetry := fun _ => true }

/-- An operation that succeeds immediately, for the C9 witness. -/
def c9okOp : Nat → Except JsVal (HttpResponse Int) := fun _ => .ok ⟨42, 200⟩

/-- An operation that fails immediately with a 500 failure, for the C9
witness. -/
def c9errOp : Nat → Except JsVal (HttpResponse Int) :=
  fun _ => .error (.JObj [("status", .JNum 500), ("message", .JStr "boom")])

/-- C9 witness: the disabled path applied to one succeeding and one failing
concrete operation. -/
theorem retry_disabled_single_attempt_C9_witness :
    (executeRequest false c9rc ⟨5, 60000, 60000⟩ CBState.init 0 0 c9okOp none).1.1 =
      Except.ok 42
    ∧ (executeRequest false c9rc ⟨5, 60000, 60000⟩ CBState.init 0 0 c9errOp none).2 = 1
    ∧ (executeRequest false c9rc ⟨5, 60000, 60000⟩ CBState.init 0 0 c9errOp none).1.1 =
        Except.error (enhanceError (.JObj [("status", .JNum 500), ("message", .JStr "boom")])
          none none) := by
  refine ⟨?_, ?_, ?_⟩
  · exact (retry_disabled_single_attempt_C9 c9rc ⟨5, 60000, 60000⟩ CBState.init 0 0 c9okOp
      none).2.2.1 ⟨42, 200⟩ rfl
  · exact (retry_disabled_single_attempt_C9 c9rc ⟨5, 60000, 60000⟩ CBState.init 0 0 c9errOp
      none).1
  · exact (retry_disabled_single_attempt_C9 c9rc ⟨5, 60000, 60000⟩ CBState.init 0 0 c9errOp
      none).2.2.2 _ rfl

end Mixpost
